import Mathlib

/-!
Shallow embedding of the student-tutor automation system: the QuestionRecord
data model and its Mongoose pre-save hook, the Slack interaction handlers
(approval, edit, view submission), the DeepSeek answer generator with its
retry/fallback policy, and the Google Sheets archival row construction.
Timestamps are modelled as natural numbers, fallible external calls as
boolean outcome flags in an effect environment, and the side effects of a
handler invocation as lists accumulated in a system state.
-/

namespace StudentTutor

/-- The QuestionRecord document, from the Mongoose `questionSchema`:
nullable columns are `Option`, timestamps are `Nat`. -/
structure QuestionRecord where
  id : String
  accountId : String
  accountName : String
  question : String
  answer : String
  editedAnswer : Option String := none
  isApproved : Bool := false
  isFromImage : Bool := false
  imageUrl : Option String := none
  createdAt : Nat
  updatedAt : Nat
  approvedAt : Option Nat := none
  approvedBy : Option String := none
deriving DecidableEq, Repr

/-- Creation of a question record as done in the Telegram message flow:
`new Question({accountId, accountName, question, answer, isApproved: false, isFromImage})`
with the schema defaults for the remaining fields, followed by `save()`
(whose pre-save hook sets `updatedAt` to the current time). -/
def mkQuestionRecord (id accountId accountName question answer : String)
    (isFromImage : Bool) (imageUrl : Option String) (now : Nat) : QuestionRecord :=
  { id := id, accountId := accountId, accountName := accountName,
    question := question, answer := answer,
    editedAnswer := none, isApproved := false,
    isFromImage := isFromImage, imageUrl := imageUrl,
    createdAt := now, updatedAt := now,
    approvedAt := none, approvedBy := none }

/-- The record store (Mongo collection), keyed by the `id` field. -/
abbrev Store := List QuestionRecord

/-- `Question.findById`: first record whose id matches. -/
def findById (store : Store) (i : String) : Option QuestionRecord :=
  store.find? (fun r => r.id == i)

/-- `questionRecord.save()` on an existing document: replace the stored
document(s) with that id by the updated one. -/
def storeSave (store : Store) (r : QuestionRecord) : Store :=
  store.map (fun x => if x.id == r.id then r else x)

/-- JavaScript `a || b` where `a` is a possibly-absent string: `null`,
`undefined` and the empty string are falsy and select `b`. -/
def jsOrString : Option String → String → String
  | some s, d => if s = "" then d else s
  | none, d => d

/-- One appended Google Sheets row, from `GoogleSheetsService.saveRecord`:
`[timestamp, accountName, question, answer, editedAnswer || answer]`. -/
structure SheetRow where
  timestamp : Nat
  accountName : String
  question : String
  answer : String
  editedAnswerCol : String
deriving DecidableEq, Repr

/-- A log line, tagged with its level. -/
inductive LogEntry where
  | error (msg : String)
  | info (msg : String)
deriving DecidableEq, Repr

/-- Observable system state threaded through a handler invocation: the
record store plus the accumulated external side effects (Slack message
updates, Telegram sends, archived sheet rows, opened edit modals, logs). -/
structure SysState where
  store : Store
  slackUpdates : List (String × String) := []
  sends : List (String × String) := []
  sheetRows : List SheetRow := []
  modalsOpened : List (String × String × String) := []
  logs : List LogEntry := []
deriving DecidableEq, Repr

/-- Outcome flags for the fallible external calls a handler awaits: `true`
means the call resolves, `false` means it rejects (throws). -/
structure EffectEnv where
  saveOk : Bool := true
  updateMessageOk : Bool := true
  sendMessageOk : Bool := true
  sheetsOk : Bool := true
  openModalOk : Bool := true
deriving DecidableEq, Repr

/-- The environment in which every external call succeeds. -/
def envAllOk : EffectEnv := {}

/-- A `block_actions` payload as read by `handleBlockActions`:
`actions[0].action_id`, `actions[0].value`, `user.id`, `message.ts`,
`channel.id`. -/
structure BlockActionPayload where
  actionId : String
  value : String
  userId : String
  messageTs : String
  channelId : String
deriving DecidableEq, Repr

/-- A `view_submission` payload as read by `handleViewSubmission`: the
private metadata (`data_key`, `channel_id`, `message_ts`), the submitted
text and the acting user id. -/
structure ViewSubmissionPayload where
  dataKey : String
  channelId : String
  messageTs : String
  submittedText : String
  userId : String
deriving DecidableEq, Repr

/-- The field mutation performed by `handleApproval` before `save()`,
including the pre-save hook setting `updatedAt`. -/
def approveMutate (r : QuestionRecord) (userId : String) (now : Nat) : QuestionRecord :=
  { r with isApproved := true, approvedAt := some now,
           approvedBy := some userId, updatedAt := now }

/-- The field mutation performed by `handleViewSubmission` before `save()`,
including the pre-save hook setting `updatedAt`. -/
def editMutate (r : QuestionRecord) (submitted : String) (userId : String) (now : Nat) :
    QuestionRecord :=
  { r with editedAnswer := some submitted, isApproved := true,
           approvedAt := some now, approvedBy := some userId, updatedAt := now }

/-- `handleApproval(payload, questionRecord)`: the whole body runs inside a
single try/catch, so the first rejecting await jumps to the catch (which
logs) and the remaining awaits never run. Steps in order: save the mutated
record, update the Slack message with the original answer, send the
original answer to the student, append the archival row (built without an
`editedAnswer` key), log success. Rejecting service calls log their own
error before rethrowing, as the service wrappers do. -/
def handleApproval (env : EffectEnv) (pl : BlockActionPayload) (now : Nat)
    (st : SysState) (r : QuestionRecord) : SysState :=
  let r' := approveMutate r pl.userId now
  if env.saveOk = false then
    { st with logs := st.logs ++ [LogEntry.error "Error handling approval"] }
  else
    let st1 := { st with store := storeSave st.store r' }
    if env.updateMessageOk = false then
      { st1 with logs := st1.logs ++
          [LogEntry.error "Error updating Slack message",
           LogEntry.error "Error handling approval"] }
    else
      let st2 := { st1 with slackUpdates := st1.slackUpdates ++ [(pl.messageTs, r.answer)] }
      if env.sendMessageOk = false then
        { st2 with logs := st2.logs ++
            [LogEntry.error "Error sending message to Telegram",
             LogEntry.error "Error handling approval"] }
      else
        let st3 := { st2 with sends := st2.sends ++ [(r.accountId, r.answer)] }
        if env.sheetsOk = false then
          { st3 with logs := st3.logs ++
              [LogEntry.error "Error saving to Google Sheets",
               LogEntry.error "Error handling approval"] }
        else
          let st4 := { st3 with sheetRows := st3.sheetRows ++
              [({ timestamp := now, accountName := r.accountName,
                  question := r.question, answer := r.answer,
                  editedAnswerCol := jsOrString none r.answer } : SheetRow)] }
          { st4 with logs := st4.logs ++
              [LogEntry.info ("Approved answer sent to student: " ++ r.id)] }

/-- `handleEditRequest(payload, questionRecord)`: opens the edit modal with
private metadata `(channel_id, message_ts, data_key)`; a rejecting
`views.open` is caught and logged. -/
def handleEditRequest (env : EffectEnv) (pl : BlockActionPayload)
    (st : SysState) (r : QuestionRecord) : SysState :=
  if env.openModalOk = false then
    { st with logs := st.logs ++
        [LogEntry.error "Error opening edit modal",
         LogEntry.error "Error handling edit request"] }
  else
    { st with modalsOpened := st.modalsOpened ++ [(pl.channelId, pl.messageTs, r.id)],
              logs := st.logs ++
                [LogEntry.info ("Edit modal opened for question: " ++ r.id)] }

/-- `handleBlockActions(payload)`: looks up the record by `actions[0].value`;
when absent it logs and returns; otherwise it dispatches on the action id
(approve_button / edited_button, anything else falls through silently). -/
def handleBlockActions (env : EffectEnv) (pl : BlockActionPayload) (now : Nat)
    (st : SysState) : SysState :=
  match findById st.store pl.value with
  | none =>
      { st with logs := st.logs ++
          [LogEntry.error ("Question record not found: " ++ pl.value)] }
  | some r =>
      if pl.actionId = "approve_button" then handleApproval env pl now st r
      else if pl.actionId = "edited_button" then handleEditRequest env pl st r
      else st

/-- `handleViewSubmission(payload)`: decodes the private metadata, reads the
submitted text, looks up the record by `data_key` (absent: log and return),
then inside the same try/catch: save the edited record, update the Slack
message with the submitted text, send the submitted text to the student,
append the archival row whose last column is `editedAnswer || answer`,
log success. -/
def handleViewSubmission (env : EffectEnv) (vp : ViewSubmissionPayload) (now : Nat)
    (st : SysState) : SysState :=
  match findById st.store vp.dataKey with
  | none =>
      { st with logs := st.logs ++
          [LogEntry.error ("Question record not found: " ++ vp.dataKey)] }
  | some r =>
      let r' := editMutate r vp.submittedText vp.userId now
      if env.saveOk = false then
        { st with logs := st.logs ++ [LogEntry.error "Error handling view submission"] }
      else
        let st1 := { st with store := storeSave st.store r' }
        if env.updateMessageOk = false then
          { st1 with logs := st1.logs ++
              [LogEntry.error "Error updating Slack message",
               LogEntry.error "Error handling view submission"] }
        else
          let st2 := { st1 with slackUpdates :=
              st1.slackUpdates ++ [(vp.messageTs, vp.submittedText)] }
          if env.sendMessageOk = false then
            { st2 with logs := st2.logs ++
                [LogEntry.error "Error sending message to Telegram",
                 LogEntry.error "Error handling view submission"] }
          else
            let st3 := { st2 with sends := st2.sends ++ [(r.accountId, vp.submittedText)] }
            if env.sheetsOk = false then
              { st3 with logs := st3.logs ++
                  [LogEntry.error "Error saving to Google Sheets",
                   LogEntry.error "Error handling view submission"] }
            else
              let st4 := { st3 with sheetRows := st3.sheetRows ++
                  [({ timestamp := now, accountName := r.accountName,
                      question := r.question, answer := r.answer,
                      editedAnswerCol := jsOrString (some vp.submittedText) r.answer } : SheetRow)] }
              { st4 with logs := st4.logs ++
                  [LogEntry.info ("Edited answer sent to student: " ++ r.id)] }

/-! The DeepSeek answer generator. -/

/-- The request shape an attempt sends: whether a system-role message is
included, `max_tokens`, temperature in tenths (0.7 and 0.5 scaled by ten to
stay in `Nat`), and the axios timeout in milliseconds. -/
structure RequestParams where
  hasSystemRole : Bool
  maxTokens : Nat
  temperatureTenths : Nat
  timeoutMs : Nat
deriving DecidableEq, Repr

/-- The primary request of `_makeRequest`: system role, 1000 max tokens,
temperature 0.7, 30s timeout. -/
def primaryParams : RequestParams :=
  { hasSystemRole := true, maxTokens := 1000, temperatureTenths := 7, timeoutMs := 30000 }

/-- The request of `_makeSimplifiedRequest`: no system role, 100 max tokens,
temperature 0.5, 15s timeout. -/
def simplifiedParams : RequestParams :=
  { hasSystemRole := false, maxTokens := 100, temperatureTenths := 5, timeoutMs := 15000 }

/-- `this.maxRetries` from the DeepseekService constructor. -/
def maxRetries : Nat := 2

/-- `this.retryDelay` (ms) from the DeepseekService constructor. -/
def retryDelay : Nat := 1000

/-- An observable event of one `generateAnswer` run: a `setTimeout` wait or
an outgoing API request. -/
inductive ApiEvent where
  | wait (ms : Nat)
  | request (p : RequestParams)
deriving DecidableEq, Repr

/-- Substring containment, modelling JavaScript `String.prototype.includes`. -/
def strIncludes (s pat : String) : Bool :=
  decide (pat.data <:+: s.data)

/-- Character-wise lowercasing, modelling `String.prototype.toLowerCase`
on the ASCII questions this service sees. -/
def strToLower (s : String) : String := ⟨s.data.map Char.toLower⟩

/-- Mathematics-bucket fallback string of `_getFallbackResponse`. -/
def mathFallback : String :=
  "The formula you\x27re asking about appears to involve mathematical concepts. A teacher will review your question and provide a detailed answer shortly."

/-- Physics-bucket fallback string of `_getFallbackResponse`. -/
def physicsFallback : String :=
  "Your physics question requires careful explanation. A teacher will review your question and provide a detailed answer shortly."

/-- Chemistry-bucket fallback string of `_getFallbackResponse`. -/
def chemistryFallback : String :=
  "Your chemistry question involves specific concepts. A teacher will review your question and provide a detailed answer shortly."

/-- Generic fallback string of `_getFallbackResponse`. -/
def genericFallback : String :=
  "I\x27ll help with your question. A teacher will review it and provide a detailed answer shortly."

/-- The mathematics-bucket keyword test on the lowercased question. -/
def mathHit (q : String) : Bool :=
  strIncludes q "math" || strIncludes q "formula" ||
  strIncludes q "equation" || strIncludes q "calculate"

/-- The physics-bucket keyword test on the lowercased question. -/
def physicsHit (q : String) : Bool :=
  strIncludes q "physics" || strIncludes q "force" ||
  strIncludes q "energy" || strIncludes q "motion"

/-- The chemistry-bucket keyword test on the lowercased question. -/
def chemistryHit (q : String) : Bool :=
  strIncludes q "chemistry" || strIncludes q "reaction" || strIncludes q "molecule"

/-- `_getFallbackResponse(question)`: lowercase, then the four keyword
buckets tested in order. -/
def getFallbackResponse (question : String) : String :=
  let q := strToLower question
  if mathHit q then mathFallback
  else if physicsHit q then physicsFallback
  else if chemistryHit q then chemistryFallback
  else genericFallback

/-- The retry loop of `generateAnswer` (`while (retries <= this.maxRetries)`):
`primary k` is the outcome of attempt number `k` (`some answer` when the
request resolves with a well-formed body, `none` when it rejects or the body
is malformed). `budget` counts the remaining iterations the while-condition
still admits, `maxRetries + 1 - retries`. Returns the successful answer (if
any) and the trace of waits and requests. -/
def generateLoop (primary : Nat → Option String) :
    Nat → Nat → Option String × List ApiEvent
  | _, 0 => (none, [])
  | retries, budget + 1 =>
    let pre : List ApiEvent :=
      if retries > 0 then [ApiEvent.wait (retryDelay * retries)] else []
    match primary retries with
    | some a => (some a, pre ++ [ApiEvent.request primaryParams])
    | none =>
        let next := generateLoop primary (retries + 1) budget
        (next.1, pre ++ [ApiEvent.request primaryParams] ++ next.2)

/-- `generateAnswer(question)`: the retry loop over the primary request; if
all attempts fail, one simplified request (`simplified` is its outcome); if
that also fails, the local `_getFallbackResponse`. Returns the answer and
the event trace. -/
def generateAnswer (primary : Nat → Option String) (simplified : Option String)
    (question : String) : String × List ApiEvent :=
  let p := generateLoop primary 0 (maxRetries + 1)
  match p.1 with
  | some a => (a, p.2)
  | none =>
      match simplified with
      | some a => (a, p.2 ++ [ApiEvent.request simplifiedParams])
      | none => (getFallbackResponse question, p.2 ++ [ApiEvent.request simplifiedParams])

/-- The QuestionRecord invariants of the data model: `editedAnswer` non-null
only if approved, `approvedAt`/`approvedBy` non-null iff approved,
`updatedAt ≥ createdAt`. -/
def recordInvariant (r : QuestionRecord) : Prop :=
  (r.editedAnswer ≠ none → r.isApproved = true) ∧
  (r.approvedAt ≠ none ↔ r.isApproved = true) ∧
  (r.approvedBy ≠ none ↔ r.isApproved = true) ∧
  r.createdAt ≤ r.updatedAt

instance (r : QuestionRecord) : Decidable (recordInvariant r) := by
  unfold recordInvariant; infer_instance

/-! Helper lemmas shared by the claim theorems. -/

/-- Looking up an id after saving an updated document with that id yields
the updated document. -/
theorem findById_storeSave_of_found (st : Store) (i : String) (r r' : QuestionRecord)
    (h : findById st i = some r) (h2 : r'.id = r.id) (h3 : r.id = i) :
    findById (storeSave st r') i = some r' := by
  induction st with
  | nil => simp [findById] at h
  | cons x xs ih =>
    by_cases hx : x.id = i
    · have hxr : x = r := by
        simpa [findById, List.find?_cons_of_pos, hx] using h
      simp [findById, storeSave, hx, hxr, h2, h3]
    · have htl : findById xs i = some r := by
        simpa [findById, List.find?_cons_of_neg, hx] using h
      have := ih htl
      simp [findById, storeSave] at this ⊢
      simp [show ¬ x.id = r'.id from by rw [h2, h3]; exact hx, hx, this]

/-- The id of the record mutated by the approval transition. -/
theorem approveMutate_id (r : QuestionRecord) (u : String) (n : Nat) :
    (approveMutate r u n).id = r.id := rfl

/-- The id of the record mutated by the edit-submission transition. -/
theorem editMutate_id (r : QuestionRecord) (s u : String) (n : Nat) :
    (editMutate r s u n).id = r.id := rfl

/-- In the all-success environment, `handleApproval` persists the approval
mutation, updates the review card and delivers/archives the original
answer, in that order. -/
theorem handleApproval_allOk (pl : BlockActionPayload) (now : Nat) (st : SysState)
    (r : QuestionRecord) :
    handleApproval envAllOk pl now st r =
      { st with store := storeSave st.store (approveMutate r pl.userId now),
                slackUpdates := st.slackUpdates ++ [(pl.messageTs, r.answer)],
                sends := st.sends ++ [(r.accountId, r.answer)],
                sheetRows := st.sheetRows ++
                  [({ timestamp := now, accountName := r.accountName,
                      question := r.question, answer := r.answer,
                      editedAnswerCol := r.answer } : SheetRow)],
                logs := st.logs ++
                  [LogEntry.info ("Approved answer sent to student: " ++ r.id)] } := by
  simp [handleApproval, envAllOk, jsOrString]

/-- Every branch of `_getFallbackResponse` returns one of the four bucket
strings. -/
theorem getFallbackResponse_mem (q : String) :
    getFallbackResponse q = mathFallback ∨ getFallbackResponse q = physicsFallback ∨
    getFallbackResponse q = chemistryFallback ∨ getFallbackResponse q = genericFallback := by
  unfold getFallbackResponse
  by_cases h1 : mathHit (strToLower q) = true
  · simp [h1]
  · by_cases h2 : physicsHit (strToLower q) = true
    · simp [h1, h2]
    · by_cases h3 : chemistryHit (strToLower q) = true
      · simp [h1, h2, h3]
      · simp [h1, h2, h3]

/-- The local fallback is never the empty string. -/
theorem getFallbackResponse_ne_empty (q : String) : getFallbackResponse q ≠ "" := by
  rcases getFallbackResponse_mem q with h | h | h | h <;> rw [h] <;> decide

/-! The claim theorems. -/

/-- C4 counterexample: the claim that `generateAnswer` always resolves to a
non-empty string is false as stated — when the first primary request
resolves with a well-formed body whose message content is the empty string
(the code checks `choices.length > 0` but not the content), the empty
string is returned verbatim. -/
theorem C4_counterexample_empty_api_content :
    (generateAnswer (fun _ => some "") none "What is 2+2?").1 = "" := rfl

/-- C4 (amended): `generateAnswer` is total — no error escapes, every path
resolves to some string. Whenever every successful API response content is
non-empty the result is non-empty, and when the retried primary requests
and the simplified request all fail the result is the locally computed
fallback, which is itself always non-empty. -/
theorem C4_generate_total_fallback (primary : Nat → Option String)
    (simplified : Option String) (q : String)
    (hp : ∀ k s, primary k = some s → s ≠ "")
    (hs : ∀ s, simplified = some s → s ≠ "") :
    (generateAnswer primary simplified q).1 ≠ "" ∧
    ((∀ k, primary k = none) → simplified = none →
      (generateAnswer primary simplified q).1 = getFallbackResponse q) := by
  constructor
  · rcases h0 : primary 0 with _ | a0
    · rcases h1 : primary 1 with _ | a1
      · rcases h2 : primary 2 with _ | a2
        · rcases hsm : simplified with _ | b
          · simp [generateAnswer, generateLoop, maxRetries, retryDelay, h0, h1, h2, hsm]
            exact getFallbackResponse_ne_empty q
          · simp [generateAnswer, generateLoop, maxRetries, retryDelay, h0, h1, h2, hsm]
            exact hs b hsm
        · simp [generateAnswer, generateLoop, maxRetries, retryDelay, h0, h1, h2]
          exact hp 2 a2 h2
      · simp [generateAnswer, generateLoop, maxRetries, retryDelay, h0, h1]
        exact hp 1 a1 h1
    · simp [generateAnswer, generateLoop, maxRetries, retryDelay, h0]
      exact hp 0 a0 h0
  · intro hall hnone
    simp [generateAnswer, generateLoop, maxRetries, retryDelay, hall 0, hall 1, hall 2, hnone]

/-- C4 witness: with every request failing, the amended theorem applies and
gives a non-empty, locally computed answer. -/
theorem C4_generate_witness :
    (generateAnswer (fun _ => none) none "What is 2+2?").1 ≠ "" ∧
    ((∀ k : Nat, (fun _ : Nat => (none : Option String)) k = none) → (none : Option String) = none →
      (generateAnswer (fun _ => none) none "What is 2+2?").1 =
        getFallbackResponse "What is 2+2?") :=
  C4_generate_total_fallback (fun _ => none) none "What is 2+2?"
    (fun _ _ h => nomatch h) (fun _ h => nomatch h)

/-- C5: the primary request is attempted at most `maxRetries + 1 = 3` times,
with waits of `retryDelay * 1 = 1000` ms and `retryDelay * 2 = 2000` ms
before the retries; only when all three fail is exactly one simplified
request made (no system role, 100 max tokens, temperature 0.5, 15s timeout,
against 1000 tokens, 0.7, 30s for the primary); only when that also fails
is the local fallback produced. -/
theorem C5_retry_schedule (primary : Nat → Option String)
    (simplified : Option String) (q : String) :
    (∀ a, primary 0 = some a →
      generateAnswer primary simplified q = (a, [ApiEvent.request primaryParams])) ∧
    (primary 0 = none → ∀ a, primary 1 = some a →
      generateAnswer primary simplified q =
        (a, [ApiEvent.request primaryParams, ApiEvent.wait 1000,
             ApiEvent.request primaryParams])) ∧
    (primary 0 = none → primary 1 = none → ∀ a, primary 2 = some a →
      generateAnswer primary simplified q =
        (a, [ApiEvent.request primaryParams, ApiEvent.wait 1000,
             ApiEvent.request primaryParams, ApiEvent.wait 2000,
             ApiEvent.request primaryParams])) ∧
    (primary 0 = none → primary 1 = none → primary 2 = none → ∀ a, simplified = some a →
      generateAnswer primary simplified q =
        (a, [ApiEvent.request primaryParams, ApiEvent.wait 1000,
             ApiEvent.request primaryParams, ApiEvent.wait 2000,
             ApiEvent.request primaryParams, ApiEvent.request simplifiedParams])) ∧
    (primary 0 = none → primary 1 = none → primary 2 = none → simplified = none →
      generateAnswer primary simplified q =
        (getFallbackResponse q,
         [ApiEvent.request primaryParams, ApiEvent.wait 1000,
          ApiEvent.request primaryParams, ApiEvent.wait 2000,
          ApiEvent.request primaryParams, ApiEvent.request simplifiedParams])) ∧
    maxRetries + 1 = 3 ∧
    primaryParams = { hasSystemRole := true, maxTokens := 1000,
                      temperatureTenths := 7, timeoutMs := 30000 } ∧
    simplifiedParams = { hasSystemRole := false, maxTokens := 100,
                         temperatureTenths := 5, timeoutMs := 15000 } := by
  refine ⟨?_, ?_, ?_, ?_, ?_, rfl, rfl, rfl⟩
  · intro a h0
    simp [generateAnswer, generateLoop, maxRetries, retryDelay, h0]
  · intro h0 a h1
    simp [generateAnswer, generateLoop, maxRetries, retryDelay, h0, h1]
  · intro h0 h1 a h2
    simp [generateAnswer, generateLoop, maxRetries, retryDelay, h0, h1, h2]
  · intro h0 h1 h2 a hsm
    simp [generateAnswer, generateLoop, maxRetries, retryDelay, h0, h1, h2, hsm]
  · intro h0 h1 h2 hsm
    simp [generateAnswer, generateLoop, maxRetries, retryDelay, h0, h1, h2, hsm]

/-- C5 witness: a run whose first two attempts fail and whose third
succeeds shows the two waits and the three primary requests. -/
theorem C5_retry_witness :
    generateAnswer (fun k => if k = 2 then some "ans" else none) none "w" =
      ("ans", [ApiEvent.request primaryParams, ApiEvent.wait 1000,
               ApiEvent.request primaryParams, ApiEvent.wait 2000,
               ApiEvent.request primaryParams]) :=
  (C5_retry_schedule (fun k => if k = 2 then some "ans" else none) none "w").2.2.1
    (by decide) (by decide) "ans" (by decide)

/-- C6: a question containing "equation" (case-insensitively) and none of
the physics or chemistry keywords gets the mathematics-bucket fallback; a
question containing no keyword of any bucket gets the generic fallback. -/
theorem C6_fallback_keyword_routing (q : String) :
    (strIncludes (strToLower q) "equation" = true →
     physicsHit (strToLower q) = false → chemistryHit (strToLower q) = false →
     getFallbackResponse q = mathFallback) ∧
    (mathHit (strToLower q) = false → physicsHit (strToLower q) = false →
     chemistryHit (strToLower q) = false →
     getFallbackResponse q = genericFallback) := by
  constructor
  · intro he _ _
    have hm : mathHit (strToLower q) = true := by
      unfold mathHit
      rw [he]
      simp
    simp [getFallbackResponse, hm]
  · intro hm hp hc
    simp [getFallbackResponse, hm, hp, hc]

/-- C6 witness: concrete questions exercising both routing branches. -/
theorem C6_routing_witness :
    getFallbackResponse "Solve this Equation" = mathFallback ∧
    getFallbackResponse "hello there" = genericFallback :=
  ⟨(C6_fallback_keyword_routing "Solve this Equation").1 (by decide) (by decide) (by decide),
   (C6_fallback_keyword_routing "hello there").2 (by decide) (by decide) (by decide)⟩

/-- C10: the fallback buckets are tested in the fixed order mathematics,
physics, chemistry, generic; any mathematics keyword (such as "equation")
wins over the other buckets, and physics wins over chemistry. -/
theorem C10_fallback_priority_order (q : String) :
    (mathHit (strToLower q) = true → getFallbackResponse q = mathFallback) ∧
    (mathHit (strToLower q) = false → physicsHit (strToLower q) = true →
      getFallbackResponse q = physicsFallback) ∧
    (mathHit (strToLower q) = false → physicsHit (strToLower q) = false →
      chemistryHit (strToLower q) = true → getFallbackResponse q = chemistryFallback) ∧
    (mathHit (strToLower q) = false → physicsHit (strToLower q) = false →
      chemistryHit (strToLower q) = false → getFallbackResponse q = genericFallback) ∧
    (strIncludes (strToLower q) "equation" = true → getFallbackResponse q = mathFallback) ∧
    (mathHit (strToLower q) = false → strIncludes (strToLower q) "physics" = true →
      getFallbackResponse q = physicsFallback) := by
  refine ⟨?_, ?_, ?_, ?_, ?_, ?_⟩
  · intro hm
    simp [getFallbackResponse, hm]
  · intro hm hp
    simp [getFallbackResponse, hm, hp]
  · intro hm hp hc
    simp [getFallbackResponse, hm, hp, hc]
  · intro hm hp hc
    simp [getFallbackResponse, hm, hp, hc]
  · intro he
    have hm : mathHit (strToLower q) = true := by
      unfold mathHit
      rw [he]
      simp
    simp [getFallbackResponse, hm]
  · intro hm hp
    have hph : physicsHit (strToLower q) = true := by
      unfold physicsHit
      rw [hp]
      simp
    simp [getFallbackResponse, hm, hph]

/-- C10 witness: "equation" plus "physics" routes to mathematics, and
"physics" plus "reaction" routes to physics. -/
theorem C10_priority_witness :
    getFallbackResponse "an equation about physics" = mathFallback ∧
    getFallbackResponse "physics of a reaction" = physicsFallback :=
  ⟨(C10_fallback_priority_order "an equation about physics").2.2.2.2.1 (by decide),
   (C10_fallback_priority_order "physics of a reaction").2.2.2.2.2 (by decide) (by decide)⟩

/-- Fixture record for the C1 witness. -/
def rC1 : QuestionRecord :=
  { id := "q-1", accountId := "stu-1", accountName := "Asha", question := "Why?",
    answer := "Because.", createdAt := 0, updatedAt := 0 }

/-- Fixture state for the C1 witness. -/
def stC1 : SysState := { store := [rC1] }

/-- Fixture approve payload for the C1 witness. -/
def plC1 : BlockActionPayload :=
  { actionId := "approve_button", value := "q-1", userId := "rev-1",
    messageTs := "111.222", channelId := "CH1" }

/-- C1: processing a direct-approve `block_actions` callback (action id
`approve_button`, value the record id) on a record stored with
`isApproved = false` and `editedAnswer = null` leaves the stored record
with `isApproved = true`, `editedAnswer` still null, `approvedAt` set to
the current timestamp and `approvedBy` the clicking Slack user, and the
text delivered to the student and archived is the original answer. -/
theorem C1_direct_approve_roundtrip (pl : BlockActionPayload) (now : Nat)
    (st : SysState) (r : QuestionRecord)
    (hfind : findById st.store pl.value = some r)
    (hid : r.id = pl.value)
    (_happr : r.isApproved = false)
    (hea : r.editedAnswer = none)
    (haid : pl.actionId = "approve_button") :
    ∃ r2, findById (handleBlockActions envAllOk pl now st).store pl.value = some r2 ∧
      r2.isApproved = true ∧ r2.editedAnswer = none ∧
      r2.approvedAt = some now ∧ r2.approvedBy = some pl.userId ∧
      (handleBlockActions envAllOk pl now st).sends = st.sends ++ [(r.accountId, r.answer)] ∧
      (handleBlockActions envAllOk pl now st).sheetRows = st.sheetRows ++
        [({ timestamp := now, accountName := r.accountName, question := r.question,
            answer := r.answer, editedAnswerCol := r.answer } : SheetRow)] := by
  have hb : handleBlockActions envAllOk pl now st = handleApproval envAllOk pl now st r := by
    simp [handleBlockActions, hfind, haid]
  refine ⟨approveMutate r pl.userId now, ?_, rfl, ?_, rfl, rfl, ?_, ?_⟩
  · rw [hb, handleApproval_allOk]
    exact findById_storeSave_of_found st.store pl.value r _ hfind (approveMutate_id r _ _) hid
  · simp [approveMutate, hea]
  · rw [hb, handleApproval_allOk]
  · rw [hb, handleApproval_allOk]

/-- C1 witness: the theorem applied to the fixture store. -/
theorem C1_approve_witness :
    ∃ r2, findById (handleBlockActions envAllOk plC1 7 stC1).store plC1.value = some r2 ∧
      r2.isApproved = true ∧ r2.editedAnswer = none ∧
      r2.approvedAt = some 7 ∧ r2.approvedBy = some plC1.userId ∧
      (handleBlockActions envAllOk plC1 7 stC1).sends =
        stC1.sends ++ [(rC1.accountId, rC1.answer)] ∧
      (handleBlockActions envAllOk plC1 7 stC1).sheetRows = stC1.sheetRows ++
        [({ timestamp := 7, accountName := rC1.accountName, question := rC1.question,
            answer := rC1.answer, editedAnswerCol := rC1.answer } : SheetRow)] :=
  C1_direct_approve_roundtrip plC1 7 stC1 rC1
    (by decide) (by decide) (by decide) (by decide) (by decide)

/-- Fixture record for C2. -/
def rC2 : QuestionRecord :=
  { id := "q-2", accountId := "stu-2", accountName := "Ben", question := "How?",
    answer := "Original answer.", createdAt := 0, updatedAt := 0 }

/-- Fixture state for C2. -/
def stC2 : SysState := { store := [rC2] }

/-- Fixture view submission with empty submitted text, for the C2
counterexample. -/
def vpC2empty : ViewSubmissionPayload :=
  { dataKey := "q-2", channelId := "CH2", messageTs := "222.333",
    submittedText := "", userId := "rev-2" }

/-- Fixture view submission with non-empty text, for the C2 witness. -/
def vpC2 : ViewSubmissionPayload :=
  { dataKey := "q-2", channelId := "CH2", messageTs := "222.333",
    submittedText := "Try squaring both sides.", userId := "rev-2" }

/-- C2 counterexample: for a submission whose submitted text is the empty
string, the archived row falls back to the original answer
(`editedAnswer || answer` in `saveRecord` treats the empty string as
falsy), so the edited-answer column does not equal the submitted text. -/
theorem C2_counterexample_empty_submission :
    vpC2empty.submittedText = "" ∧
    (handleViewSubmission envAllOk vpC2empty 1 stC2).sheetRows.map SheetRow.editedAnswerCol
      = ["Original answer."] ∧
    ("Original answer." : String) ≠ "" := by decide

/-- C2 (amended): for every edit-form submission carrying the record id
whose submitted text is non-empty, the record ends with `editedAnswer`
equal to the submitted text and `isApproved = true`, the review card is
updated with and the student is sent the submitted text (not the original
answer), and the archived row's edited-answer column equals the submitted
text. -/
theorem C2_edit_roundtrip_nonempty (vp : ViewSubmissionPayload) (now : Nat)
    (st : SysState) (r : QuestionRecord)
    (hfind : findById st.store vp.dataKey = some r)
    (hid : r.id = vp.dataKey)
    (hne : vp.submittedText ≠ "") :
    ∃ r2, findById (handleViewSubmission envAllOk vp now st).store vp.dataKey = some r2 ∧
      r2.editedAnswer = some vp.submittedText ∧ r2.isApproved = true ∧
      (handleViewSubmission envAllOk vp now st).slackUpdates =
        st.slackUpdates ++ [(vp.messageTs, vp.submittedText)] ∧
      (handleViewSubmission envAllOk vp now st).sends =
        st.sends ++ [(r.accountId, vp.submittedText)] ∧
      (handleViewSubmission envAllOk vp now st).sheetRows = st.sheetRows ++
        [({ timestamp := now, accountName := r.accountName, question := r.question,
            answer := r.answer, editedAnswerCol := vp.submittedText } : SheetRow)] := by
  have hv : handleViewSubmission envAllOk vp now st =
      { st with store := storeSave st.store (editMutate r vp.submittedText vp.userId now),
                slackUpdates := st.slackUpdates ++ [(vp.messageTs, vp.submittedText)],
                sends := st.sends ++ [(r.accountId, vp.submittedText)],
                sheetRows := st.sheetRows ++
                  [({ timestamp := now, accountName := r.accountName,
                      question := r.question, answer := r.answer,
                      editedAnswerCol := vp.submittedText } : SheetRow)],
                logs := st.logs ++
                  [LogEntry.info ("Edited answer sent to student: " ++ r.id)] } := by
    simp [handleViewSubmission, hfind, envAllOk, jsOrString, hne]
  refine ⟨editMutate r vp.submittedText vp.userId now, ?_, rfl, rfl, ?_, ?_, ?_⟩
  · rw [hv]
    exact findById_storeSave_of_found st.store vp.dataKey r _ hfind (editMutate_id r _ _ _) hid
  · rw [hv]
  · rw [hv]
  · rw [hv]

/-- C2 witness: the amended theorem applied to the fixture submission. -/
theorem C2_edit_witness :
    ∃ r2, findById (handleViewSubmission envAllOk vpC2 9 stC2).store vpC2.dataKey = some r2 ∧
      r2.editedAnswer = some vpC2.submittedText ∧ r2.isApproved = true ∧
      (handleViewSubmission envAllOk vpC2 9 stC2).slackUpdates =
        stC2.slackUpdates ++ [(vpC2.messageTs, vpC2.submittedText)] ∧
      (handleViewSubmission envAllOk vpC2 9 stC2).sends =
        stC2.sends ++ [(rC2.accountId, vpC2.submittedText)] ∧
      (handleViewSubmission envAllOk vpC2 9 stC2).sheetRows = stC2.sheetRows ++
        [({ timestamp := 9, accountName := rC2.accountName, question := rC2.question,
            answer := rC2.answer, editedAnswerCol := vpC2.submittedText } : SheetRow)] :=
  C2_edit_roundtrip_nonempty vpC2 9 stC2 rC2 (by decide) (by decide) (by decide)

/-- Fixture record for C3. -/
def rC3 : QuestionRecord :=
  { id := "q-3", accountId := "stu-3", accountName := "Cal", question := "When?",
    answer := "Soon.", createdAt := 0, updatedAt := 0 }

/-- Fixture state for C3. -/
def stC3 : SysState := { store := [rC3] }

/-- Fixture approve payload for C3. -/
def plC3 : BlockActionPayload :=
  { actionId := "approve_button", value := "q-3", userId := "rev-3",
    messageTs := "333.444", channelId := "CH3" }

/-- Environment in which the review-card update rejects, for C3. -/
def envC3 : EffectEnv := { updateMessageOk := false }

/-- C3 counterexample: with the review-card update failing, the approval
handler persists the approval but then jumps to its single catch block, so
the student is never sent the answer and nothing is archived — the claim
that the workflow continues with the remaining steps is false. -/
theorem C3_counterexample_update_failure :
    (handleBlockActions envC3 plC3 1 stC3).sends = [] ∧
    (findById (handleBlockActions envC3 plC3 1 stC3).store "q-3").map
      QuestionRecord.isApproved = some true ∧
    (handleBlockActions envC3 plC3 1 stC3).sheetRows = [] := by decide

/-- C3 (amended): during the approval transition every side effect runs
inside one try/catch: a failure is logged and does not roll back prior
steps, but it aborts the remaining steps — in particular a review-channel
update failure leaves the record persisted as approved while the answer is
never delivered to the student and nothing is archived. -/
theorem C3_failure_no_rollback_aborts_rest (env : EffectEnv) (pl : BlockActionPayload)
    (now : Nat) (st : SysState) (r : QuestionRecord)
    (hfind : findById st.store pl.value = some r)
    (hid : r.id = pl.value)
    (haid : pl.actionId = "approve_button")
    (hsave : env.saveOk = true) (hupd : env.updateMessageOk = false) :
    (findById (handleBlockActions env pl now st).store pl.value).map
      QuestionRecord.isApproved = some true ∧
    (handleBlockActions env pl now st).slackUpdates = st.slackUpdates ∧
    (handleBlockActions env pl now st).sends = st.sends ∧
    (handleBlockActions env pl now st).sheetRows = st.sheetRows ∧
    (handleBlockActions env pl now st).logs = st.logs ++
      [LogEntry.error "Error updating Slack message",
       LogEntry.error "Error handling approval"] := by
  have hb : handleBlockActions env pl now st = handleApproval env pl now st r := by
    simp [handleBlockActions, hfind, haid]
  have ha : handleApproval env pl now st r =
      { st with store := storeSave st.store (approveMutate r pl.userId now),
                logs := st.logs ++
                  [LogEntry.error "Error updating Slack message",
                   LogEntry.error "Error handling approval"] } := by
    simp [handleApproval, hsave, hupd]
  refine ⟨?_, ?_, ?_, ?_, ?_⟩
  · rw [hb, ha]
    have := findById_storeSave_of_found st.store pl.value r
      (approveMutate r pl.userId now) hfind (approveMutate_id r _ _) hid
    dsimp only
    rw [this]
    rfl
  · rw [hb, ha]
  · rw [hb, ha]
  · rw [hb, ha]
  · rw [hb, ha]

/-- C3 witness: the amended theorem applied to the fixture store with a
failing review-card update. -/
theorem C3_failure_witness :
    (findById (handleBlockActions envC3 plC3 5 stC3).store plC3.value).map
      QuestionRecord.isApproved = some true ∧
    (handleBlockActions envC3 plC3 5 stC3).slackUpdates = stC3.slackUpdates ∧
    (handleBlockActions envC3 plC3 5 stC3).sends = stC3.sends ∧
    (handleBlockActions envC3 plC3 5 stC3).sheetRows = stC3.sheetRows ∧
    (handleBlockActions envC3 plC3 5 stC3).logs = stC3.logs ++
      [LogEntry.error "Error updating Slack message",
       LogEntry.error "Error handling approval"] :=
  C3_failure_no_rollback_aborts_rest envC3 plC3 5 stC3 rC3
    (by decide) (by decide) (by decide) (by decide) (by decide)

/-- Fixture unknown-id approve payload for C7. -/
def plC7 : BlockActionPayload :=
  { actionId := "approve_button", value := "missing-1", userId := "rev-7",
    messageTs := "777.888", channelId := "CH7" }

/-- Fixture unknown-id view submission for C7. -/
def vpC7 : ViewSubmissionPayload :=
  { dataKey := "missing-2", channelId := "CH7", messageTs := "777.999",
    submittedText := "whatever", userId := "rev-7" }

/-- Fixture state with an empty store for C7. -/
def stC7 : SysState := { store := [] }

/-- C7: an approve/edit callback or an edit-form submission whose embedded
record id matches no stored record changes nothing except appending one
not-found log entry: the store, the sends, the review-card updates, the
archive and the modals are exactly as before, and the (total) handler
returns normally. -/
theorem C7_unknown_record_dropped (env : EffectEnv) (pl : BlockActionPayload)
    (vp : ViewSubmissionPayload) (now : Nat) (st : SysState)
    (h1 : findById st.store pl.value = none)
    (h2 : findById st.store vp.dataKey = none) :
    handleBlockActions env pl now st =
      { st with logs := st.logs ++
          [LogEntry.error ("Question record not found: " ++ pl.value)] } ∧
    handleViewSubmission env vp now st =
      { st with logs := st.logs ++
          [LogEntry.error ("Question record not found: " ++ vp.dataKey)] } := by
  constructor
  · simp [handleBlockActions, h1]
  · simp [handleViewSubmission, h2]

/-- C7 witness: both handlers on an empty store. -/
theorem C7_unknown_witness :
    handleBlockActions envAllOk plC7 3 stC7 =
      { stC7 with logs := stC7.logs ++
          [LogEntry.error ("Question record not found: " ++ plC7.value)] } ∧
    handleViewSubmission envAllOk vpC7 3 stC7 =
      { stC7 with logs := stC7.logs ++
          [LogEntry.error ("Question record not found: " ++ vpC7.dataKey)] } :=
  C7_unknown_record_dropped envAllOk plC7 vpC7 3 stC7 (by decide) (by decide)

/-- Fixture already-approved record for C8. -/
def rC8 : QuestionRecord :=
  { id := "q-8", accountId := "stu-8", accountName := "Dee", question := "Who?",
    answer := "Her.", isApproved := true, createdAt := 0, updatedAt := 2,
    approvedAt := some 2, approvedBy := some "rev-old" }

/-- Fixture state for C8. -/
def stC8 : SysState := { store := [rC8] }

/-- Fixture duplicate approve payload for C8. -/
def plC8 : BlockActionPayload :=
  { actionId := "approve_button", value := "q-8", userId := "rev-new",
    messageTs := "888.999", channelId := "CH8" }

/-- C8: the approval transition has no guard on the approval flag — for a
record already stored with `isApproved = true`, a duplicate approve
callback re-enters the transition, re-setting `approvedAt`/`approvedBy`
to the new click and re-delivering and re-archiving the answer. -/
theorem C8_duplicate_approve_reenters (pl : BlockActionPayload) (now : Nat)
    (st : SysState) (r : QuestionRecord)
    (hfind : findById st.store pl.value = some r)
    (hid : r.id = pl.value)
    (_happr : r.isApproved = true)
    (haid : pl.actionId = "approve_button") :
    (handleBlockActions envAllOk pl now st).sends = st.sends ++ [(r.accountId, r.answer)] ∧
    (findById (handleBlockActions envAllOk pl now st).store pl.value).map
      QuestionRecord.approvedAt = some (some now) ∧
    (findById (handleBlockActions envAllOk pl now st).store pl.value).map
      QuestionRecord.approvedBy = some (some pl.userId) ∧
    (handleBlockActions envAllOk pl now st).sheetRows = st.sheetRows ++
      [({ timestamp := now, accountName := r.accountName, question := r.question,
          answer := r.answer, editedAnswerCol := r.answer } : SheetRow)] := by
  have hb : handleBlockActions envAllOk pl now st = handleApproval envAllOk pl now st r := by
    simp [handleBlockActions, hfind, haid]
  have hf : findById (handleApproval envAllOk pl now st r).store pl.value =
      some (approveMutate r pl.userId now) := by
    rw [handleApproval_allOk]
    exact findById_storeSave_of_found st.store pl.value r _ hfind (approveMutate_id r _ _) hid
  refine ⟨?_, ?_, ?_, ?_⟩
  · rw [hb, handleApproval_allOk]
  · rw [hb, hf]; rfl
  · rw [hb, hf]; rfl
  · rw [hb, handleApproval_allOk]

/-- C8 witness: the theorem applied to the fixture already-approved
record. -/
theorem C8_duplicate_witness :
    (handleBlockActions envAllOk plC8 6 stC8).sends =
      stC8.sends ++ [(rC8.accountId, rC8.answer)] ∧
    (findById (handleBlockActions envAllOk plC8 6 stC8).store plC8.value).map
      QuestionRecord.approvedAt = some (some 6) ∧
    (findById (handleBlockActions envAllOk plC8 6 stC8).store plC8.value).map
      QuestionRecord.approvedBy = some (some plC8.userId) ∧
    (handleBlockActions envAllOk plC8 6 stC8).sheetRows = stC8.sheetRows ++
      [({ timestamp := 6, accountName := rC8.accountName, question := rC8.question,
          answer := rC8.answer, editedAnswerCol := rC8.answer } : SheetRow)] :=
  C8_duplicate_approve_reenters plC8 6 stC8 rC8
    (by decide) (by decide) (by decide) (by decide)

/-- Fixture record for C9, created earlier than the mutation time. -/
def rC9 : QuestionRecord :=
  mkQuestionRecord "q-9" "stu-9" "Eve" "What?" "That." false none 3

/-- C9: creation yields a record satisfying the invariants, and both the
direct-approval mutation and the edit-submission mutation (each followed by
the pre-save hook setting `updatedAt`) preserve them, provided time does
not run backwards (`createdAt ≤ now`). -/
theorem C9_record_invariants_preserved (id aid an q a : String) (fi : Bool)
    (iu : Option String) (cnow now : Nat) (r : QuestionRecord) (uid s : String)
    (hinv : recordInvariant r) (hle : r.createdAt ≤ now) :
    recordInvariant (mkQuestionRecord id aid an q a fi iu cnow) ∧
    recordInvariant (approveMutate r uid now) ∧
    recordInvariant (editMutate r s uid now) := by
  obtain ⟨he, ha, hb, hc⟩ := hinv
  refine ⟨?_, ?_, ?_⟩ <;>
    simp [recordInvariant, mkQuestionRecord, approveMutate, editMutate, hle]

/-- C9 witness: the theorem applied to a concrete created record. -/
theorem C9_invariants_witness :
    recordInvariant (mkQuestionRecord "q-0" "stu-0" "Fay" "Hm?" "Yes." false none 5) ∧
    recordInvariant (approveMutate rC9 "rev-9" 7) ∧
    recordInvariant (editMutate rC9 "edited text" "rev-9" 7) :=
  C9_record_invariants_preserved "q-0" "stu-0" "Fay" "Hm?" "Yes." false none 5 7 rC9
    "rev-9" "edited text" (by decide) (by decide)

end StudentTutor
